import Mathlib

/-!
Verification of the Neo4jLiaison wrapper (src/neo4j_liaison.py).

The wrapper is a thin adapter over the external Neo4j Python driver: it
builds Cypher query strings by textual substitution, binds data values as
parameters, forwards the query to a driver session, and reshapes the
driver-native records into plain dictionaries and tuples.  We embed:

  - the Python-level primitives the code relies on (percent-formatting of
    strings, dict construction from key-value pairs, tuple of a record);
  - the wrapper object state (the _driver and _current_session fields) and
    the session-related methods as explicit state-passing functions;
  - each data operation, split into the query it builds (a pure function of
    its arguments) and the reshaping it applies to the records the driver
    hands back (a pure function of those records);
  - a small model of the external database for the specific query shapes
    the wrapper emits (match by label and id, max aggregate, SET update),
    used only to connect driver responses to graph content.
-/

/-- A Neo4j property value as seen through the Python driver: an integer, a
string, or null. -/
inductive Value where
  | null : Value
  | int : Int → Value
  | str : String → Value
deriving DecidableEq, Repr

/-- A driver record: an ordered list of field-name / value pairs, in the
order the record reports its fields. -/
abbrev Record := List (String × Value)

/-- A Neo4j node as surfaced by the driver: its labels and its properties.
The items() call on a node yields the props list. -/
structure Node where
  labels : List String
  props : List (String × Value)
deriving DecidableEq, Repr

/-- Keys of an association list (the attribute or field names). -/
def keysOf (r : List (String × Value)) : List String :=
  r.map Prod.fst

/-- Lookup of a key in a record, first match wins; none when the key is
absent.  Models record.get(key) returning the field value. -/
def lookupProp : List (String × Value) → String → Option Value
  | [], _ => none
  | (k, v) :: rest, key => if k = key then some v else lookupProp rest key

/-- One insertion step of Python dict construction: if the key is already
present its value is overwritten in place, otherwise the pair is appended. -/
def pyInsert (d : List (String × Value)) (k : String) (v : Value) :
    List (String × Value) :=
  if k ∈ keysOf d then
    d.map (fun p => if p.1 = k then (k, v) else p)
  else
    d ++ [(k, v)]

/-- Python dict(items): fold the pairs into a dict, later pairs overwriting
earlier ones with the same key, keys kept in first-appearance order. -/
def pyDict (items : List (String × Value)) : List (String × Value) :=
  items.foldl (fun d kv => pyInsert d kv.1 kv.2) []

/-- Python tuple(record): a neo4j Record iterates over its values, so the
tuple holds the field values in the record field order. -/
def pyTuple (r : Record) : List Value :=
  r.map Prod.snd

/-- Character-level engine of Python percent-formatting restricted to the
percent-s directive: each occurrence of the two characters percent, s is
replaced by the data of the next argument; all other characters are kept. -/
def pyPercentAux : List Char → List String → List Char
  | [], _ => []
  | '%' :: 's' :: rest, a :: args => a.data ++ pyPercentAux rest args
  | c :: rest, args => c :: pyPercentAux rest args

/-- Python template % (arg1, ..., argn) for templates whose only directives
are percent-s occurrences. -/
def pyPercent (template : String) (args : List String) : String :=
  ⟨pyPercentAux template.data args⟩

/-! ## Wrapper object state and session-related methods

The Neo4jLiaison object holds two fields, _driver and _current_session,
both initialised to None by the constructor.  Driver and session objects
are opaque handles from the external library; we model them by identifiers.
The external effects (the driver handing out a session, the driver being
closed) are made explicit: new_session takes the fresh session the driver
would return, and close reports which driver it forwarded the close to. -/

/-- An opaque neo4j.Session object handed out by the driver. -/
structure Session where
  sid : Nat
deriving DecidableEq, Repr

/-- An opaque driver object created by GraphDatabase.driver. -/
structure Driver where
  did : Nat
deriving DecidableEq, Repr

/-- The two instance fields of a Neo4jLiaison object. -/
structure LiaisonState where
  driverField : Option Driver
  currentSessionField : Option Session
deriving DecidableEq, Repr

/-- The constructor: both fields start as None; then the driver creation is
attempted.  On success the driver field is set; on failure the constructor
re-raises, so no object results.  The argument is the outcome of the
external GraphDatabase.driver call. -/
def liaisonInit (driverResult : Except String Driver) :
    Except String LiaisonState :=
  match driverResult with
  | Except.error ex =>
      Except.error
        ("CHECK IF NEO4J IS RUNNING! While instantiating the Neo4jLiaison object, failed to create the driver: "
          ++ ex)
  | Except.ok d =>
      Except.ok { driverField := some d, currentSessionField := none }

/-- close(): if the driver field is set, forward close() to the driver; the
fields of the wrapper are not assigned.  The first component records the
external effect (which driver, if any, had close() called on it). -/
def close (s : LiaisonState) : Option Driver × LiaisonState :=
  match s.driverField with
  | some d => (some d, s)
  | none => (none, s)

/-- new_session(): raise when the driver field is None, else obtain a fresh
session from the driver, save it in _current_session and return it.  The
fresh session the driver would produce is passed in explicitly. -/
def new_session (s : LiaisonState) (fresh : Session) :
    Except String (Session × LiaisonState) :=
  match s.driverField with
  | none =>
      Except.error "Calling the session() method, but self._driver isn\x27t set"
  | some _ =>
      Except.ok (fresh, { s with currentSessionField := some fresh })

/-- get_session(): return the saved session when one is present, else
create one via new_session. -/
def get_session (s : LiaisonState) (fresh : Session) :
    Except String (Session × LiaisonState) :=
  match s.currentSessionField with
  | some sess => Except.ok (sess, s)
  | none => new_session s fresh

/-! ## Query construction

Each data operation assembles its Cypher string by textual substitution of
the label, clause and attribute-name arguments (percent-formatting or
f-strings in the source), while the data values are passed to the driver
separately as a parameter dictionary.  We embed the string each method
builds and the parameter dictionary it binds. -/

/-- Cypher string built by retrieve_node_by_label_and_id (percent-format of
the label into the template). -/
def retrieve_node_by_label_and_id_cypher (label : String) : String :=
  pyPercent "MATCH (n:%s \x7bid:$id\x7d) RETURN n" [label]

/-- Parameters bound by retrieve_node_by_label_and_id: the call
sess.run(cypher, id=id_value) binds id_value under the name id. -/
def retrieve_node_by_label_and_id_params (id_value : Int) : Record :=
  [("id", Value.int id_value)]

/-- Cypher string built by retrieve_node_by_label_and_clause
(percent-format of the label and the clause into the template). -/
def retrieve_node_by_label_and_clause_cypher (label clause : String) :
    String :=
  pyPercent "MATCH (n:%s) WHERE %s RETURN n" [label, clause]

/-- Cypher string built by next_available_id: an f-string when the clause
is empty, a percent-format of label and clause otherwise. -/
def next_available_id_cypher (label clause : String) : String :=
  if clause = "" then
    "MATCH (n:" ++ label ++ ") RETURN 1+max(n.id) AS max_value"
  else
    pyPercent "MATCH (n:%s \x7b%s\x7d) RETURN 1+max(n.id) AS max_value"
      [label, clause]

/-- The attribute string create_node assembles: one key-colon-dollar-key
entry per dictionary key, in dictionary order, joined by comma-space. -/
def create_node_attributes_str (items : Record) : String :=
  String.intercalate ", " (items.map (fun kv => kv.1 ++ ": $" ++ kv.1))

/-- Cypher string built by create_node (percent-format of the label and the
assembled attribute string into the template). -/
def create_node_cypher (label : String) (items : Record) : String :=
  pyPercent "CREATE (:%s \x7b%s\x7d)" [label, create_node_attributes_str items]

/-- Parameters bound by create_node: the items dictionary itself is passed
as the data binding of run_query. -/
def create_node_params (items : Record) : Record :=
  items

/-- Cypher string built by change_single_attribute_by_id (an f-string
interpolating the label and the attribute name). -/
def change_single_attribute_by_id_cypher (label attribute_name : String) :
    String :=
  "MATCH (n:" ++ label ++ ") WHERE n.id = $node_id SET n." ++ attribute_name
    ++ " = $new_attribute_value"

/-- Parameters bound by change_single_attribute_by_id: node_id and
new_attribute_value under their own names. -/
def change_single_attribute_by_id_params (node_id : Int)
    (new_attribute_value : Value) : Record :=
  [("node_id", Value.int node_id),
   ("new_attribute_value", new_attribute_value)]

/-! ## Model of the external driver and database

The driver and the remote database are an opaque dependency of the
wrapper.  The wrapper hands them a query string and parameters and gets
records back; to connect the claims to graph content we model the database
response for the three query shapes the wrapper emits: the match by label
and id, the max aggregate, and the SET update. -/

/-- Whether a node carries the given label and an id property equal to the
given integer: the match condition of the queries built from a label and an
id value. -/
def nodeMatches (n : Node) (label : String) (id_value : Int) : Bool :=
  n.labels.contains label
    && lookupProp n.props "id" == some (Value.int id_value)

/-- Database response to MATCH (n:label \x7bid:$id\x7d) RETURN n: the
matching nodes, one record per node, in graph order. -/
def matchByLabelAndId (g : List Node) (label : String) (id_value : Int) :
    List Node :=
  g.filter (fun n => nodeMatches n label id_value)

/-- The Cypher max() aggregate over the id values of the matching nodes:
null on no rows, the maximum otherwise. -/
def maxAggregate : List Int → Option Int
  | [] => none
  | x :: xs => some (xs.foldl max x)

/-- Database response to RETURN 1+max(n.id) AS max_value when the matching
nodes carry the given id values: a single record holding 1 plus the
maximum, or null when no node matched. -/
def runMaxQuery (ids : List Int) : List Record :=
  [[("max_value",
     match maxAggregate ids with
     | none => Value.null
     | some m => Value.int (1 + m))]]

/-- Database effect of MATCH (n:label) WHERE n.id = $node_id
SET n.attr = $value: every matching node gets the property attr set to the
value (overwritten in place or appended), every other node is untouched. -/
def runSetQuery (g : List Node) (label : String) (node_id : Int)
    (attr : String) (v : Value) : List Node :=
  g.map (fun n =>
    if nodeMatches n label node_id then
      { n with props := pyInsert n.props attr v }
    else n)

/-- Driver Result.value(field): the value of the named field of each
record, in record order, null when a record lacks the field. -/
def resultValue (field : String) (records : List Record) : List Value :=
  records.map (fun r => (lookupProp r field).getD Value.null)

/-! ## Data operations

Each data operation retrieves or creates a session through get_session,
runs its query through that session and reshapes the records the driver
returns.  The driver response is passed in explicitly; the operation
returns its value together with the wrapper state it leaves behind. -/

/-- run_query: obtain a session via get_session, run the query, hand the
driver result object straight back. -/
def run_query {α : Type} (s : LiaisonState) (fresh : Session)
    (result_obj : α) : Except String (α × LiaisonState) :=
  match get_session s fresh with
  | Except.error e => Except.error e
  | Except.ok (_, s1) => Except.ok (result_obj, s1)

/-- retrieve_node_by_label_and_id: take the single record of the response
if available (the driver single() call yields the first record, or None on
an empty result), and turn the node of that record into a plain dict via
dict(node.items()); None when there is no record. -/
def retrieve_node_by_label_and_id (s : LiaisonState) (fresh : Session)
    (response : List Node) : Except String (Option Record × LiaisonState) :=
  match get_session s fresh with
  | Except.error e => Except.error e
  | Except.ok (_, s1) =>
    match response with
    | [] => Except.ok (none, s1)
    | node :: _ => Except.ok (some (pyDict node.props), s1)

/-- The reshaping loop of retrieve_node_by_label_and_clause: one dict per
returned node, built from the node items, appended in response order. -/
def retrieve_node_by_label_and_clause_records (response : List Node) :
    List Record :=
  response.map (fun node => pyDict node.props)

/-- retrieve_node_by_label_and_clause: session via get_session, then the
reshaping loop over the driver response. -/
def retrieve_node_by_label_and_clause (s : LiaisonState) (fresh : Session)
    (response : List Node) : Except String (List Record × LiaisonState) :=
  match get_session s fresh with
  | Except.error e => Except.error e
  | Except.ok (_, s1) =>
      Except.ok (retrieve_node_by_label_and_clause_records response, s1)

/-- query_list_single_field: session via get_session, then the driver
Result.value(field_name) list. -/
def query_list_single_field (s : LiaisonState) (fresh : Session)
    (field_name : String) (records : List Record) :
    Except String (List Value × LiaisonState) :=
  match get_session s fresh with
  | Except.error e => Except.error e
  | Except.ok (_, s1) => Except.ok (resultValue field_name records, s1)

/-- query_list_multiple_fields_dict: session via get_session, then one
dict(record) per record of the response, in response order. -/
def query_list_multiple_fields_dict (s : LiaisonState) (fresh : Session)
    (records : List Record) :
    Except String (List Record × LiaisonState) :=
  match get_session s fresh with
  | Except.error e => Except.error e
  | Except.ok (_, s1) => Except.ok (records.map pyDict, s1)

/-- query_list_multiple_fields: session via get_session, then one
tuple(record) per record of the response, in response order. -/
def query_list_multiple_fields (s : LiaisonState) (fresh : Session)
    (records : List Record) :
    Except String (List (List Value) × LiaisonState) :=
  match get_session s fresh with
  | Except.error e => Except.error e
  | Except.ok (_, s1) => Except.ok (records.map pyTuple, s1)

/-- next_available_id: run the aggregate query through
query_list_single_field, take element 0 of the returned list (an IndexError
when the list is empty), return 1 on a null value and the value itself
otherwise. -/
def next_available_id (s : LiaisonState) (fresh : Session)
    (records : List Record) : Except String (Value × LiaisonState) :=
  match query_list_single_field s fresh "max_value" records with
  | Except.error e => Except.error e
  | Except.ok (result_list, s1) =>
    match result_list with
    | [] => Except.error "IndexError: list index out of range"
    | result :: _ =>
      if result = Value.null then Except.ok (Value.int 1, s1)
      else Except.ok (result, s1)

/-- change_single_attribute_by_id: build the query, run it through
run_query, ignore the result object and return None. -/
def change_single_attribute_by_id (s : LiaisonState) (fresh : Session) :
    Except String (Option Value × LiaisonState) :=
  match run_query s fresh () with
  | Except.error e => Except.error e
  | Except.ok (_, s1) => Except.ok (none, s1)

/-! ## Helper lemmas -/

theorem pyDict_foldl (items acc : List (String × Value))
    (h : (keysOf (acc ++ items)).Nodup) :
    items.foldl (fun d kv => pyInsert d kv.1 kv.2) acc = acc ++ items := by
  induction items generalizing acc with
  | nil => simp
  | cons kv rest ih =>
    obtain ⟨k, v⟩ := kv
    have hk : k ∉ keysOf acc := by
      simp only [keysOf, List.map_append, List.map_cons] at h
      intro hc
      have hd := (List.nodup_append.mp h).2.2
      exact hd hc (by simp)
    have step : pyInsert acc k v = acc ++ [(k, v)] := by
      simp [pyInsert, hk]
    rw [List.foldl_cons]
    simp only [step]
    rw [ih (acc ++ [(k, v)])]
    · simp
    · simpa using h

/-- Python dict construction is the identity on association lists with
pairwise distinct keys. -/
theorem pyDict_nodup (items : List (String × Value))
    (h : (keysOf items).Nodup) : pyDict items = items := by
  simpa using pyDict_foldl items [] (by simpa using h)

theorem lookupProp_append (d1 d2 : List (String × Value)) (key : String) :
    lookupProp (d1 ++ d2) key =
      match lookupProp d1 key with
      | some v => some v
      | none => lookupProp d2 key := by
  induction d1 with
  | nil => simp [lookupProp]
  | cons p rest ih =>
    obtain ⟨k1, v1⟩ := p
    by_cases hk : k1 = key
    · subst hk
      simp [lookupProp]
    · simp [lookupProp, hk, ih]

theorem lookupProp_none_of_not_mem (d : List (String × Value)) (key : String)
    (h : key ∉ keysOf d) : lookupProp d key = none := by
  induction d with
  | nil => rfl
  | cons p rest ih =>
    obtain ⟨k1, v1⟩ := p
    simp only [keysOf, List.map_cons, List.mem_cons] at h
    push_neg at h
    rw [lookupProp, if_neg (fun hc : k1 = key => h.1 hc.symm)]
    exact ih (by simpa [keysOf] using h.2)

theorem lookupProp_map_update_self (d : List (String × Value)) (k : String)
    (v : Value) :
    lookupProp (d.map (fun p => if p.1 = k then (k, v) else p)) k
      = if k ∈ keysOf d then some v else none := by
  induction d with
  | nil => simp [lookupProp, keysOf]
  | cons p rest ih =>
    obtain ⟨k1, v1⟩ := p
    simp only [List.map_cons]
    by_cases hk : k1 = k
    · subst hk
      rw [if_pos (show ((k1, v1) : String × Value).1 = k1 from rfl)]
      rw [show lookupProp
            ((k1, v) :: List.map (fun p => if p.1 = k1 then (k1, v) else p) rest) k1
          = if k1 = k1 then some v
            else lookupProp
              (List.map (fun p => if p.1 = k1 then (k1, v) else p) rest) k1
          from rfl]
      rw [if_pos rfl,
        if_pos (show k1 ∈ keysOf ((k1, v1) :: rest) from by simp [keysOf])]
    · rw [if_neg (show ¬ ((k1, v1) : String × Value).1 = k from hk)]
      rw [show lookupProp
            ((k1, v1) :: List.map (fun p => if p.1 = k then (k, v) else p) rest) k
          = if k1 = k then some v1
            else lookupProp
              (List.map (fun p => if p.1 = k then (k, v) else p) rest) k
          from rfl]
      rw [if_neg hk, ih]
      have hiff : (k ∈ keysOf ((k1, v1) :: rest)) ↔ (k ∈ keysOf rest) := by
        simp [keysOf, Ne.symm hk]
      by_cases hm : k ∈ keysOf rest
      · rw [if_pos hm, if_pos (hiff.mpr hm)]
      · rw [if_neg hm, if_neg (fun hc => hm (hiff.mp hc))]

theorem lookupProp_map_update_other (d : List (String × Value)) (k k2 : String)
    (v : Value) (hne : k2 ≠ k) :
    lookupProp (d.map (fun p => if p.1 = k then (k, v) else p)) k2
      = lookupProp d k2 := by
  induction d with
  | nil => rfl
  | cons p rest ih =>
    obtain ⟨k1, v1⟩ := p
    simp only [List.map_cons]
    by_cases hk : k1 = k
    · subst hk
      rw [if_pos (show ((k1, v1) : String × Value).1 = k1 from rfl)]
      rw [show lookupProp
            ((k1, v) :: List.map (fun p => if p.1 = k1 then (k1, v) else p) rest) k2
          = if k1 = k2 then some v
            else lookupProp
              (List.map (fun p => if p.1 = k1 then (k1, v) else p) rest) k2
          from rfl]
      rw [show lookupProp ((k1, v1) :: rest) k2
          = if k1 = k2 then some v1 else lookupProp rest k2 from rfl]
      rw [if_neg (fun hc : k1 = k2 => hne hc.symm),
        if_neg (fun hc : k1 = k2 => hne hc.symm), ih]
    · rw [if_neg (show ¬ ((k1, v1) : String × Value).1 = k from hk)]
      rw [show lookupProp
            ((k1, v1) :: List.map (fun p => if p.1 = k then (k, v) else p) rest) k2
          = if k1 = k2 then some v1
            else lookupProp
              (List.map (fun p => if p.1 = k then (k, v) else p) rest) k2
          from rfl]
      rw [show lookupProp ((k1, v1) :: rest) k2
          = if k1 = k2 then some v1 else lookupProp rest k2 from rfl]
      by_cases hk2 : k1 = k2
      · rw [if_pos hk2, if_pos hk2]
      · rw [if_neg hk2, if_neg hk2, ih]

/-- Setting a key via pyInsert makes the key look up to the new value. -/
theorem lookupProp_pyInsert_self (d : List (String × Value)) (k : String)
    (v : Value) : lookupProp (pyInsert d k v) k = some v := by
  unfold pyInsert
  by_cases hm : k ∈ keysOf d
  · rw [if_pos hm, lookupProp_map_update_self, if_pos hm]
  · rw [if_neg hm, lookupProp_append, lookupProp_none_of_not_mem d k hm]
    simp [lookupProp]

/-- Setting a key via pyInsert leaves every other key unchanged. -/
theorem lookupProp_pyInsert_other (d : List (String × Value)) (k k2 : String)
    (v : Value) (hne : k2 ≠ k) :
    lookupProp (pyInsert d k v) k2 = lookupProp d k2 := by
  unfold pyInsert
  by_cases hm : k ∈ keysOf d
  · rw [if_pos hm, lookupProp_map_update_other d k k2 v hne]
  · rw [if_neg hm, lookupProp_append]
    cases hp : lookupProp d k2 with
    | some w => rfl
    | none => simp [lookupProp, Ne.symm hne]

/-- Keys are preserved by the overwrite branch of pyInsert. -/
theorem keysOf_pyInsert_mem (d : List (String × Value)) (k : String)
    (v : Value) (hm : k ∈ keysOf d) : keysOf (pyInsert d k v) = keysOf d := by
  unfold pyInsert
  rw [if_pos hm]
  simp only [keysOf, List.map_map]
  apply List.map_congr_left
  intro p _
  by_cases hk : p.1 = k <;> simp [hk]

theorem foldl_max_mem (x : Int) (xs : List Int) :
    xs.foldl max x = x ∨ xs.foldl max x ∈ xs := by
  induction xs generalizing x with
  | nil => simp
  | cons a l ih =>
    rw [List.foldl_cons]
    rcases ih (max x a) with h | h
    · rcases max_choice x a with hm | hm
      · left; rw [h, hm]
      · right; rw [h, hm]; simp
    · right; simp [h]

theorem pyPercent_one_label (label : String) :
    pyPercent "MATCH (n:%s \x7bid:$id\x7d) RETURN n" [label]
      = "MATCH (n:" ++ label ++ " \x7bid:$id\x7d) RETURN n" := by
  obtain ⟨d⟩ := label
  show String.mk _ = String.mk _
  simp [pyPercent, pyPercentAux, String.append]

theorem pyPercent_label_clause (label clause : String) :
    pyPercent "MATCH (n:%s) WHERE %s RETURN n" [label, clause]
      = "MATCH (n:" ++ label ++ ") WHERE " ++ clause ++ " RETURN n" := by
  obtain ⟨dl⟩ := label
  obtain ⟨dc⟩ := clause
  show String.mk _ = String.mk _
  simp [pyPercent, pyPercentAux, String.append]

theorem pyPercent_label_clause_max (label clause : String) :
    pyPercent "MATCH (n:%s \x7b%s\x7d) RETURN 1+max(n.id) AS max_value"
        [label, clause]
      = "MATCH (n:" ++ label ++ " \x7b" ++ clause
          ++ "\x7d) RETURN 1+max(n.id) AS max_value" := by
  obtain ⟨dl⟩ := label
  obtain ⟨dc⟩ := clause
  show String.mk _ = String.mk _
  simp [pyPercent, pyPercentAux, String.append]

theorem pyPercent_create (label attrs : String) :
    pyPercent "CREATE (:%s \x7b%s\x7d)" [label, attrs]
      = "CREATE (:" ++ label ++ " \x7b" ++ attrs ++ "\x7d)" := by
  obtain ⟨dl⟩ := label
  obtain ⟨da⟩ := attrs
  show String.mk _ = String.mk _
  simp [pyPercent, pyPercentAux, String.append]

theorem le_foldl_max (x : Int) (xs : List Int) : x ≤ xs.foldl max x := by
  induction xs generalizing x with
  | nil => simp
  | cons a l ih =>
    rw [List.foldl_cons]
    exact le_trans (le_max_left x a) (ih (max x a))

theorem foldl_max_le (x : Int) (xs : List Int) (y : Int)
    (h : y = x ∨ y ∈ xs) : y ≤ xs.foldl max x := by
  induction xs generalizing x with
  | nil => simp_all
  | cons a l ih =>
    rw [List.foldl_cons]
    rcases h with h | h
    · subst h
      exact le_trans (le_max_left y a) (le_foldl_max _ l)
    · rcases List.mem_cons.mp h with h | h
      · subst h
        exact le_trans (le_max_right x y) (le_foldl_max _ l)
      · exact ih (max x a) (Or.inr h)

/-! ## Claims -/

/-- C1: every query-building operation follows the textual
query-construction rule: retrieve_node_by_label_and_id substitutes the
label textually and binds id_value under the parameter name id;
change_single_attribute_by_id interpolates the label and the attribute
name and binds node_id and new_attribute_value as parameters; create_node
interpolates the label and the attribute names in dictionary order and
binds every attribute value under its own name. -/
theorem claim_C1_textual_query_construction (label attribute_name : String)
    (id_value node_id : Int) (new_attribute_value : Value) (items : Record) :
    retrieve_node_by_label_and_id_cypher label
        = "MATCH (n:" ++ label ++ " \x7bid:$id\x7d) RETURN n"
  ∧ retrieve_node_by_label_and_id_params id_value
        = [("id", Value.int id_value)]
  ∧ change_single_attribute_by_id_cypher label attribute_name
        = "MATCH (n:" ++ label ++ ") WHERE n.id = $node_id SET n."
            ++ attribute_name ++ " = $new_attribute_value"
  ∧ change_single_attribute_by_id_params node_id new_attribute_value
        = [("node_id", Value.int node_id),
           ("new_attribute_value", new_attribute_value)]
  ∧ create_node_cypher label items
        = "CREATE (:" ++ label ++ " \x7b"
            ++ String.intercalate ", "
                (items.map (fun kv => kv.1 ++ ": $" ++ kv.1))
            ++ "\x7d)"
  ∧ create_node_params items = items := by
  refine ⟨pyPercent_one_label label, rfl, rfl, rfl, ?_, rfl⟩
  exact pyPercent_create label (create_node_attributes_str items)

/-- C6, counterexample: new_session does store a driver-provided object
(the session) for reuse, and that stored state changes the behaviour of a
later get_session call. -/
theorem claim_C6_counterexample :
    new_session ⟨some ⟨0⟩, none⟩ ⟨3⟩
        = Except.ok (⟨3⟩, ⟨some ⟨0⟩, some ⟨3⟩⟩)
  ∧ (⟨some ⟨0⟩, some ⟨3⟩⟩ : LiaisonState).currentSessionField
        ≠ (⟨some ⟨0⟩, none⟩ : LiaisonState).currentSessionField
  ∧ get_session ⟨some ⟨0⟩, some ⟨3⟩⟩ ⟨4⟩ ≠ get_session ⟨some ⟨0⟩, none⟩ ⟨4⟩ := by
  refine ⟨rfl, by simp, ?_⟩
  intro hEq
  have h1 : get_session (⟨some ⟨0⟩, some ⟨3⟩⟩ : LiaisonState) ⟨4⟩
      = Except.ok (⟨3⟩, ⟨some ⟨0⟩, some ⟨3⟩⟩) := rfl
  have h2 : get_session (⟨some ⟨0⟩, none⟩ : LiaisonState) ⟨4⟩
      = Except.ok (⟨4⟩, ⟨some ⟨0⟩, some ⟨4⟩⟩) := rfl
  rw [h1, h2] at hEq
  simp at hEq

/-- C6, amended: the wrapper caches no query results, but it does keep one
driver-provided object, the current session: new_session saves the session
it creates, get_session reuses the saved one, close changes no field, and
each data operation computes its value purely from the records the driver
returns while changing at most the saved-session field. -/
theorem claim_C6_amended (s : LiaisonState) (fresh sess : Session) :
    (s.driverField ≠ none →
      new_session s fresh
        = Except.ok (fresh, { s with currentSessionField := some fresh }))
  ∧ (s.currentSessionField = some sess →
      get_session s fresh = Except.ok (sess, s))
  ∧ (close s).2 = s
  ∧ (∀ (records : List Record) (p : List Record × LiaisonState),
      query_list_multiple_fields_dict s fresh records = Except.ok p →
        p.1 = records.map pyDict
      ∧ p.2.driverField = s.driverField
      ∧ (p.2 = s ∨ p.2 = { s with currentSessionField := some fresh })) := by
  refine ⟨?_, ?_, ?_, ?_⟩
  · intro hd
    cases hdf : s.driverField with
    | none => exact absurd hdf hd
    | some d => simp [new_session, hdf]
  · intro hc
    simp [get_session, hc]
  · cases hdf : s.driverField with
    | none => simp [close, hdf]
    | some d => simp [close, hdf]
  · intro records p hp
    obtain ⟨sd, sc⟩ := s
    cases sc with
    | some c =>
      have hq : query_list_multiple_fields_dict ⟨sd, some c⟩ fresh records
          = Except.ok (records.map pyDict, ⟨sd, some c⟩) := rfl
      rw [hq] at hp
      cases hp
      exact ⟨rfl, rfl, Or.inl rfl⟩
    | none =>
      cases sd with
      | none =>
        have hq : query_list_multiple_fields_dict ⟨none, none⟩ fresh records
            = Except.error
                "Calling the session() method, but self._driver isn\x27t set" :=
          rfl
        rw [hq] at hp
        cases hp
      | some d =>
        have hq : query_list_multiple_fields_dict ⟨some d, none⟩ fresh records
            = Except.ok (records.map pyDict, ⟨some d, some fresh⟩) := rfl
        rw [hq] at hp
        cases hp
        exact ⟨rfl, rfl, Or.inr rfl⟩

/-- C8: a constructor that completes leaves the driver field set; close,
new_session and get_session never reset it to None; hence on any
successfully constructed object the exception branch of new_session is
unreachable. -/
theorem claim_C8_driver_always_set (dr : Except String Driver)
    (s : LiaisonState) (h : liaisonInit dr = Except.ok s) :
    s.driverField ≠ none
  ∧ (∀ t : LiaisonState, (close t).2.driverField = t.driverField)
  ∧ (∀ (t : LiaisonState) (fresh sess : Session) (t1 : LiaisonState),
      new_session t fresh = Except.ok (sess, t1)
        → t1.driverField = t.driverField)
  ∧ (∀ (t : LiaisonState) (fresh sess : Session) (t1 : LiaisonState),
      get_session t fresh = Except.ok (sess, t1)
        → t1.driverField = t.driverField)
  ∧ (∀ (t : LiaisonState) (fresh : Session), t.driverField ≠ none →
      new_session t fresh
        ≠ Except.error "Calling the session() method, but self._driver isn\x27t set")
  ∧ (∀ fresh : Session, ∃ p : Session × LiaisonState,
      new_session s fresh = Except.ok p) := by
  have hs : ∃ d, s.driverField = some d := by
    cases dr with
    | error e => simp [liaisonInit] at h
    | ok d =>
      simp only [liaisonInit] at h
      cases h
      exact ⟨d, rfl⟩
  obtain ⟨d0, hd0⟩ := hs
  have hnew : ∀ (t : LiaisonState) (fresh sess : Session) (t1 : LiaisonState),
      new_session t fresh = Except.ok (sess, t1)
        → t1.driverField = t.driverField := by
    intro t fresh sess t1 ht
    cases htd : t.driverField with
    | none => rw [new_session, htd] at ht; cases ht
    | some d =>
      rw [new_session, htd] at ht
      cases ht
      rfl
  refine ⟨by rw [hd0]; exact fun hc => Option.noConfusion hc, ?_, hnew, ?_, ?_, ?_⟩
  · intro t
    cases htd : t.driverField with
    | none => rw [close, htd]; exact htd
    | some d => rw [close, htd]; exact htd
  · intro t fresh sess t1 ht
    cases htc : t.currentSessionField with
    | some c =>
      rw [get_session, htc] at ht
      cases ht
      rfl
    | none =>
      rw [get_session, htc] at ht
      exact hnew t fresh sess t1 ht
  · intro t fresh htd ht
    cases htd2 : t.driverField with
    | none => exact htd htd2
    | some d => rw [new_session, htd2] at ht; cases ht
  · intro fresh
    refine ⟨(fresh, { s with currentSessionField := some fresh }), ?_⟩
    rw [new_session, hd0]

/-- C9: close only forwards to the close of the driver and leaves both
fields unchanged; on an object with a stored session, get_session after
close still returns that stored session, and a data operation after close
still succeeds inside the wrapper, reusing the stored session. -/
theorem claim_C9_close_frame (s : LiaisonState) (sess : Session)
    (h : s.currentSessionField = some sess) :
    (close s).1 = s.driverField
  ∧ (close s).2.driverField = s.driverField
  ∧ (close s).2.currentSessionField = s.currentSessionField
  ∧ (∀ fresh, get_session (close s).2 fresh = Except.ok (sess, s))
  ∧ (∀ (fresh : Session) (field : String) (records : List Record),
      query_list_single_field (close s).2 fresh field records
        = Except.ok (resultValue field records, s)) := by
  have hcl : (close s).2 = s := by
    cases htd : s.driverField with
    | none => rw [close, htd]
    | some d => rw [close, htd]
  have hclfst : (close s).1 = s.driverField := by
    cases htd : s.driverField with
    | none => rw [close, htd]
    | some d => rw [close, htd]
  have hgs : ∀ fresh, get_session s fresh = Except.ok (sess, s) := by
    intro fresh
    rw [get_session, h]
  refine ⟨hclfst, by rw [hcl], by rw [hcl], ?_, ?_⟩
  · intro fresh
    rw [hcl]
    exact hgs fresh
  · intro fresh field records
    rw [hcl, query_list_single_field, hgs fresh]

/-- C3: with the database returning the nodes matching the label and the
id value, retrieve_node_by_label_and_id returns None when no node matches,
and otherwise a plain dictionary whose keys are exactly the attribute
names of the matched node with the corresponding values. -/
theorem claim_C3_retrieve_by_id (g : List Node) (label : String)
    (id_value : Int) (s : LiaisonState) (fresh sess : Session)
    (hs : s.currentSessionField = some sess) :
    ((∀ n ∈ g, nodeMatches n label id_value = false) →
      retrieve_node_by_label_and_id s fresh (matchByLabelAndId g label id_value)
        = Except.ok (none, s))
  ∧ (∀ (n : Node) (rest : List Node),
      matchByLabelAndId g label id_value = n :: rest →
        n ∈ g
      ∧ nodeMatches n label id_value = true
      ∧ ((keysOf n.props).Nodup →
          retrieve_node_by_label_and_id s fresh
              (matchByLabelAndId g label id_value)
            = Except.ok (some n.props, s))) := by
  have hgs : get_session s fresh = Except.ok (sess, s) := by
    rw [get_session, hs]
  constructor
  · intro h
    have hfil : matchByLabelAndId g label id_value = [] := by
      rw [matchByLabelAndId]
      apply List.filter_eq_nil_iff.mpr
      intro a ha
      simp [h a ha]
    rw [hfil]
    unfold retrieve_node_by_label_and_id
    rw [hgs]
  · intro n rest hcons
    have hmem : n ∈ matchByLabelAndId g label id_value := by
      rw [hcons]; exact List.mem_cons_self n rest
    rw [matchByLabelAndId] at hmem
    have hmem2 := List.mem_filter.mp hmem
    refine ⟨hmem2.1, hmem2.2, ?_⟩
    intro hnodup
    rw [hcons]
    unfold retrieve_node_by_label_and_id
    rw [hgs]
    show Except.ok (some (pyDict n.props), s) = Except.ok (some n.props, s)
    rw [pyDict_nodup n.props hnodup]

/-- C4: the mapping half of the reshape rule: both
retrieve_node_by_label_and_clause and query_list_multiple_fields_dict
return one plain dictionary per driver record, in driver order, with the
attribute respectively field names as keys; an empty driver result yields
the empty list. -/
theorem claim_C4_dict_reshape (nodes : List Node) (records : List Record)
    (s : LiaisonState) (fresh sess : Session)
    (hs : s.currentSessionField = some sess) :
    retrieve_node_by_label_and_clause s fresh [] = Except.ok ([], s)
  ∧ query_list_multiple_fields_dict s fresh [] = Except.ok ([], s)
  ∧ retrieve_node_by_label_and_clause s fresh nodes
        = Except.ok (nodes.map (fun n => pyDict n.props), s)
  ∧ ((∀ n ∈ nodes, (keysOf n.props).Nodup) →
      retrieve_node_by_label_and_clause s fresh nodes
        = Except.ok (nodes.map (fun n => n.props), s))
  ∧ query_list_multiple_fields_dict s fresh records
        = Except.ok (records.map pyDict, s)
  ∧ ((∀ r ∈ records, (keysOf r).Nodup) →
      query_list_multiple_fields_dict s fresh records
        = Except.ok (records, s)) := by
  have hgs : get_session s fresh = Except.ok (sess, s) := by
    rw [get_session, hs]
  have hret : ∀ response : List Node,
      retrieve_node_by_label_and_clause s fresh response
        = Except.ok (response.map (fun n => pyDict n.props), s) := by
    intro response
    unfold retrieve_node_by_label_and_clause
    rw [hgs]
    rfl
  have hqd : ∀ rs : List Record,
      query_list_multiple_fields_dict s fresh rs
        = Except.ok (rs.map pyDict, s) := by
    intro rs
    unfold query_list_multiple_fields_dict
    rw [hgs]
  refine ⟨by rw [hret]; rfl, by rw [hqd]; rfl, hret nodes, ?_, hqd records, ?_⟩
  · intro hnd
    rw [hret nodes]
    congr 1
    congr 1
    apply List.map_congr_left
    intro n hn
    exact pyDict_nodup n.props (hnd n hn)
  · intro hnd
    rw [hqd records]
    congr 1
    congr 1
    have : records.map pyDict = records.map id := by
      apply List.map_congr_left
      intro r hr
      exact pyDict_nodup r (hnd r hr)
    rw [this, List.map_id]

/-- C5: the tuple half of the reshape rule: query_list_multiple_fields
returns one ordered tuple per record holding the record field values in
the record field order, and query_list_single_field returns the list of
values of the single named field, both in driver record order. -/
theorem claim_C5_tuple_reshape (records : List Record) (field : String)
    (s : LiaisonState) (fresh sess : Session)
    (hs : s.currentSessionField = some sess) :
    query_list_multiple_fields s fresh records
        = Except.ok (records.map pyTuple, s)
  ∧ (records.map pyTuple).length = records.length
  ∧ (∀ (i : Nat) (h1 : i < records.length)
        (h2 : i < (records.map pyTuple).length),
      (records.map pyTuple).get ⟨i, h2⟩
        = (records.get ⟨i, h1⟩).map Prod.snd)
  ∧ query_list_single_field s fresh field records
        = Except.ok (resultValue field records, s)
  ∧ (resultValue field records).length = records.length
  ∧ (∀ (i : Nat) (h1 : i < records.length) (v : Value),
      lookupProp (records.get ⟨i, h1⟩) field = some v →
      ∀ h2 : i < (resultValue field records).length,
        (resultValue field records).get ⟨i, h2⟩ = v) := by
  have hgs : get_session s fresh = Except.ok (sess, s) := by
    rw [get_session, hs]
  refine ⟨?_, List.length_map records pyTuple, ?_, ?_, ?_, ?_⟩
  · unfold query_list_multiple_fields
    rw [hgs]
  · intro i h1 h2
    simp [pyTuple, List.get_eq_getElem]
  · unfold query_list_single_field
    rw [hgs]
  · exact List.length_map records _
  · intro i h1 v hv h2
    simp only [resultValue, List.get_eq_getElem, List.getElem_map]
    rw [List.get_eq_getElem] at hv
    rw [hv]
    rfl

/-- C2: next_available_id builds the max aggregate query restricted by the
label (and, when non-empty, the clause) and returns 1 plus the maximum id
among the matching nodes, or 1 when no node matches (the aggregate comes
back null). -/
theorem claim_C2_next_available_id (label clause : String) (ids : List Int)
    (s : LiaisonState) (fresh sess : Session)
    (hs : s.currentSessionField = some sess) :
    next_available_id_cypher label ""
        = "MATCH (n:" ++ label ++ ") RETURN 1+max(n.id) AS max_value"
  ∧ (clause ≠ "" →
      next_available_id_cypher label clause
        = "MATCH (n:" ++ label ++ " \x7b" ++ clause
            ++ "\x7d) RETURN 1+max(n.id) AS max_value")
  ∧ (ids = [] →
      next_available_id s fresh (runMaxQuery ids)
        = Except.ok (Value.int 1, s))
  ∧ (∀ m : Int, m ∈ ids → (∀ x ∈ ids, x ≤ m) →
      next_available_id s fresh (runMaxQuery ids)
        = Except.ok (Value.int (1 + m), s)) := by
  have hgs : get_session s fresh = Except.ok (sess, s) := by
    rw [get_session, hs]
  have hrun : ∀ w : Value,
      next_available_id s fresh [[("max_value", w)]]
        = (if w = Value.null then Except.ok (Value.int 1, s)
           else Except.ok (w, s)) := by
    intro w
    unfold next_available_id query_list_single_field
    rw [hgs]
    rfl
  refine ⟨by rw [next_available_id_cypher, if_pos rfl], ?_, ?_, ?_⟩
  · intro hc
    rw [next_available_id_cypher, if_neg hc]
    exact pyPercent_label_clause_max label clause
  · intro hnil
    subst hnil
    rw [show runMaxQuery [] = [[("max_value", Value.null)]] from rfl]
    rw [hrun Value.null, if_pos rfl]
  · intro m hm hub
    cases ids with
    | nil => cases hm
    | cons x xs =>
      have hMeq : xs.foldl max x = m := by
        apply le_antisymm
        · rcases foldl_max_mem x xs with hx | hx
          · rw [hx]; exact hub x (List.mem_cons_self x xs)
          · exact hub _ (List.mem_cons_of_mem x hx)
        · rcases List.mem_cons.mp hm with hm | hm
          · exact foldl_max_le x xs m (Or.inl hm)
          · exact foldl_max_le x xs m (Or.inr hm)
      have hq : runMaxQuery (x :: xs)
          = [[("max_value", Value.int (1 + m))]] := by
        rw [runMaxQuery]
        rw [show maxAggregate (x :: xs) = some (xs.foldl max x) from rfl]
        rw [hMeq]
      rw [hq, hrun (Value.int (1 + m)),
        if_neg (fun hc => Value.noConfusion hc)]

/-- C7: change_single_attribute_by_id issues a query whose database effect
sets only the named attribute, only on nodes carrying the label with an id
equal to node_id; every other attribute of the matched nodes, their
labels, and every non-matching node stay unchanged, no node is created or
removed, and the method returns None. -/
theorem claim_C7_set_query_frame (g : List Node) (label : String)
    (node_id : Int) (attr : String) (v : String) (s : LiaisonState)
    (fresh sess : Session) (hs : s.currentSessionField = some sess) :
    change_single_attribute_by_id s fresh = Except.ok (none, s)
  ∧ (runSetQuery g label node_id attr (Value.str v)).length = g.length
  ∧ (∀ (i : Nat) (h1 : i < g.length)
        (h2 : i < (runSetQuery g label node_id attr (Value.str v)).length),
      (nodeMatches (g.get ⟨i, h1⟩) label node_id = false →
        (runSetQuery g label node_id attr (Value.str v)).get ⟨i, h2⟩
          = g.get ⟨i, h1⟩)
    ∧ (nodeMatches (g.get ⟨i, h1⟩) label node_id = true →
        ((runSetQuery g label node_id attr (Value.str v)).get ⟨i, h2⟩).labels
            = (g.get ⟨i, h1⟩).labels
      ∧ lookupProp
            ((runSetQuery g label node_id attr (Value.str v)).get ⟨i, h2⟩).props
            attr
          = some (Value.str v)
      ∧ (∀ k2 : String, k2 ≠ attr →
          lookupProp
              ((runSetQuery g label node_id attr (Value.str v)).get
                ⟨i, h2⟩).props k2
            = lookupProp (g.get ⟨i, h1⟩).props k2))) := by
  have hgs : get_session s fresh = Except.ok (sess, s) := by
    rw [get_session, hs]
  refine ⟨?_, List.length_map g _, ?_⟩
  · unfold change_single_attribute_by_id run_query
    rw [hgs]
  · intro i h1 h2
    have hget : (runSetQuery g label node_id attr (Value.str v)).get ⟨i, h2⟩
        = (if nodeMatches (g.get ⟨i, h1⟩) label node_id then
            { g.get ⟨i, h1⟩ with
                props := pyInsert (g.get ⟨i, h1⟩).props attr (Value.str v) }
           else g.get ⟨i, h1⟩) := by
      simp [runSetQuery, List.get_eq_getElem]
    constructor
    · intro hfalse
      rw [hget, if_neg (by rw [hfalse]; exact Bool.false_ne_true)]
    · intro htrue
      rw [hget, if_pos (by rw [htrue])]
      exact ⟨rfl, lookupProp_pyInsert_self _ attr (Value.str v),
        fun k2 hk2 => lookupProp_pyInsert_other _ attr k2 (Value.str v) hk2⟩

/-- C10: next_available_id extracts element 0 of the list coming back from
query_list_single_field without an emptiness check; whenever the aggregate
query yields at least one record the extraction is in bounds and a value
is returned, and on an empty record list the method raises an IndexError
instead of returning a value. -/
theorem claim_C10_index_safety (records : List Record) (s : LiaisonState)
    (fresh sess : Session) (hs : s.currentSessionField = some sess)
    (h : records ≠ []) :
    (∃ v : Value, next_available_id s fresh records = Except.ok (v, s))
  ∧ next_available_id s fresh []
      = Except.error "IndexError: list index out of range" := by
  have hgs : get_session s fresh = Except.ok (sess, s) := by
    rw [get_session, hs]
  constructor
  · cases records with
    | nil => exact absurd rfl h
    | cons r rest =>
      have hred : next_available_id s fresh (r :: rest)
          = (if (lookupProp r "max_value").getD Value.null = Value.null then
              Except.ok (Value.int 1, s)
             else
              Except.ok ((lookupProp r "max_value").getD Value.null, s)) := by
        unfold next_available_id query_list_single_field
        rw [hgs]
        rfl
      by_cases hw : (lookupProp r "max_value").getD Value.null = Value.null
      · exact ⟨Value.int 1, by rw [hred, if_pos hw]⟩
      · exact ⟨(lookupProp r "max_value").getD Value.null,
          by rw [hred, if_neg hw]⟩
  · unfold next_available_id query_list_single_field
    rw [hgs]
    rfl

/-! ## Witnesses: the claim theorems applied at concrete inputs -/

/-- Witness for C2 at a stored-session state and ids 5, 3. -/
theorem claim_C2_witness :
    (⟨some ⟨0⟩, some ⟨1⟩⟩ : LiaisonState).currentSessionField = some ⟨1⟩
  ∧ next_available_id ⟨some ⟨0⟩, some ⟨1⟩⟩ ⟨2⟩ (runMaxQuery [5, 3])
      = Except.ok (Value.int (1 + 5), ⟨some ⟨0⟩, some ⟨1⟩⟩) :=
  ⟨rfl,
    (claim_C2_next_available_id "L" "c" [5, 3]
        ⟨some ⟨0⟩, some ⟨1⟩⟩ ⟨2⟩ ⟨1⟩ rfl).2.2.2 5 (by decide) (by decide)⟩

/-- Witness for C3 on a one-node graph whose node matches. -/
theorem claim_C3_witness :
    (⟨some ⟨0⟩, some ⟨1⟩⟩ : LiaisonState).currentSessionField = some ⟨1⟩
  ∧ matchByLabelAndId
        [⟨["L"], [("id", Value.int 7), ("x", Value.str "a")]⟩] "L" 7
      = ⟨["L"], [("id", Value.int 7), ("x", Value.str "a")]⟩ :: []
  ∧ (keysOf [("id", Value.int 7), ("x", Value.str "a")]).Nodup
  ∧ retrieve_node_by_label_and_id ⟨some ⟨0⟩, some ⟨1⟩⟩ ⟨2⟩
        (matchByLabelAndId
          [⟨["L"], [("id", Value.int 7), ("x", Value.str "a")]⟩] "L" 7)
      = Except.ok (some [("id", Value.int 7), ("x", Value.str "a")],
          ⟨some ⟨0⟩, some ⟨1⟩⟩) :=
  ⟨rfl, by decide, by decide,
    ((claim_C3_retrieve_by_id
        [⟨["L"], [("id", Value.int 7), ("x", Value.str "a")]⟩] "L" 7
        ⟨some ⟨0⟩, some ⟨1⟩⟩ ⟨2⟩ ⟨1⟩ rfl).2
      ⟨["L"], [("id", Value.int 7), ("x", Value.str "a")]⟩ []
      (by decide)).2.2 (by decide)⟩

/-- Witness for C4 on a one-node response with distinct keys. -/
theorem claim_C4_witness :
    (⟨some ⟨0⟩, some ⟨1⟩⟩ : LiaisonState).currentSessionField = some ⟨1⟩
  ∧ (∀ n ∈ [(⟨["L"], [("a", Value.int 1)]⟩ : Node)], (keysOf n.props).Nodup)
  ∧ retrieve_node_by_label_and_clause ⟨some ⟨0⟩, some ⟨1⟩⟩ ⟨2⟩
        [⟨["L"], [("a", Value.int 1)]⟩]
      = Except.ok ([[("a", Value.int 1)]], ⟨some ⟨0⟩, some ⟨1⟩⟩) :=
  ⟨rfl, by decide,
    (claim_C4_dict_reshape [⟨["L"], [("a", Value.int 1)]⟩]
        [[("a", Value.int 1)]]
        ⟨some ⟨0⟩, some ⟨1⟩⟩ ⟨2⟩ ⟨1⟩ rfl).2.2.2.1 (by decide)⟩

/-- Witness for C5 on a one-record response. -/
theorem claim_C5_witness :
    (⟨some ⟨0⟩, some ⟨1⟩⟩ : LiaisonState).currentSessionField = some ⟨1⟩
  ∧ query_list_multiple_fields ⟨some ⟨0⟩, some ⟨1⟩⟩ ⟨2⟩
        [[("f", Value.int 3)]]
      = Except.ok ([[(Value.int 3)]], ⟨some ⟨0⟩, some ⟨1⟩⟩) :=
  ⟨rfl,
    (claim_C5_tuple_reshape [[("f", Value.int 3)]] "f"
        ⟨some ⟨0⟩, some ⟨1⟩⟩ ⟨2⟩ ⟨1⟩ rfl).1⟩

/-- Witness for the amended C6 at a stored-session state. -/
theorem claim_C6_amended_witness :
    (⟨some ⟨0⟩, some ⟨1⟩⟩ : LiaisonState).currentSessionField = some ⟨1⟩
  ∧ get_session ⟨some ⟨0⟩, some ⟨1⟩⟩ ⟨2⟩
      = Except.ok (⟨1⟩, ⟨some ⟨0⟩, some ⟨1⟩⟩) :=
  ⟨rfl, (claim_C6_amended ⟨some ⟨0⟩, some ⟨1⟩⟩ ⟨2⟩ ⟨1⟩).2.1 rfl⟩

/-- Witness for C7 on a one-node graph whose node matches. -/
theorem claim_C7_witness :
    (⟨some ⟨0⟩, some ⟨1⟩⟩ : LiaisonState).currentSessionField = some ⟨1⟩
  ∧ nodeMatches ⟨["L"], [("id", Value.int 7), ("x", Value.str "a")]⟩ "L" 7
      = true
  ∧ change_single_attribute_by_id ⟨some ⟨0⟩, some ⟨1⟩⟩ ⟨2⟩
      = Except.ok (none, ⟨some ⟨0⟩, some ⟨1⟩⟩)
  ∧ lookupProp
        ((runSetQuery [⟨["L"], [("id", Value.int 7), ("x", Value.str "a")]⟩]
            "L" 7 "x" (Value.str "b")).get ⟨0, by decide⟩).props "x"
      = some (Value.str "b") :=
  ⟨rfl, by decide,
    (claim_C7_set_query_frame
        [⟨["L"], [("id", Value.int 7), ("x", Value.str "a")]⟩] "L" 7 "x" "b"
        ⟨some ⟨0⟩, some ⟨1⟩⟩ ⟨2⟩ ⟨1⟩ rfl).1,
    (((claim_C7_set_query_frame
        [⟨["L"], [("id", Value.int 7), ("x", Value.str "a")]⟩] "L" 7 "x" "b"
        ⟨some ⟨0⟩, some ⟨1⟩⟩ ⟨2⟩ ⟨1⟩ rfl).2.2 0 (by decide)
        (by decide)).2 (by decide)).2.1⟩

/-- Witness for C8 on a successfully constructed object. -/
theorem claim_C8_witness :
    liaisonInit (Except.ok ⟨0⟩)
        = Except.ok ⟨some ⟨0⟩, none⟩
  ∧ (⟨some ⟨0⟩, none⟩ : LiaisonState).driverField ≠ none
  ∧ new_session ⟨some ⟨0⟩, none⟩ ⟨7⟩
      ≠ Except.error "Calling the session() method, but self._driver isn\x27t set" :=
  ⟨rfl,
    (claim_C8_driver_always_set (Except.ok ⟨0⟩) ⟨some ⟨0⟩, none⟩ rfl).1,
    (claim_C8_driver_always_set (Except.ok ⟨0⟩) ⟨some ⟨0⟩, none⟩ rfl).2.2.2.2.1
      ⟨some ⟨0⟩, none⟩ ⟨7⟩ (by decide)⟩

/-- Witness for C9 on a state holding driver 0 and stored session 1. -/
theorem claim_C9_witness :
    (⟨some ⟨0⟩, some ⟨1⟩⟩ : LiaisonState).currentSessionField = some ⟨1⟩
  ∧ get_session (close ⟨some ⟨0⟩, some ⟨1⟩⟩).2 ⟨2⟩
      = Except.ok (⟨1⟩, ⟨some ⟨0⟩, some ⟨1⟩⟩) :=
  ⟨rfl, (claim_C9_close_frame ⟨some ⟨0⟩, some ⟨1⟩⟩ ⟨1⟩ rfl).2.2.2.1 ⟨2⟩⟩

/-- Witness for C10 on a one-record response. -/
theorem claim_C10_witness :
    (⟨some ⟨0⟩, some ⟨1⟩⟩ : LiaisonState).currentSessionField = some ⟨1⟩
  ∧ ([[("max_value", Value.null)]] : List Record) ≠ []
  ∧ (∃ v : Value,
      next_available_id ⟨some ⟨0⟩, some ⟨1⟩⟩ ⟨2⟩ [[("max_value", Value.null)]]
        = Except.ok (v, ⟨some ⟨0⟩, some ⟨1⟩⟩)) :=
  ⟨rfl, by decide,
    (claim_C10_index_safety [[("max_value", Value.null)]]
        ⟨some ⟨0⟩, some ⟨1⟩⟩ ⟨2⟩ ⟨1⟩ rfl (by decide)).1⟩
